import Mathlib

/-!
Verification of the select_on_hover QGIS plugin core
(`map_tool_select_circle.py`, `select_on_hover.py`) against its
specification.  The Python code is shallowly embedded: feature ids are
`Int`, selection sets are `Finset Int`, geometries are finite sets of
integer points, floats are `Rat`, and the stateful tool is explicit
state passing.  External host services (spatial index lookup, feature
request filtering) are embedded through the contracts the spec gives
for them.
-/

namespace SelectOnHover

/-- Feature ids (QGIS feature ids are integers). -/
abbrev FeatureId := Int

/-- The selection-mode algebra, embedded from `_do_selection`
(`map_tool_select_circle.py` lines 357-367): `"add"` takes the union,
`"replace"` keeps only the newly found ids, `"toggle"` the symmetric
difference, and any other stored mode string falls into the final
`else` branch, which is again the union. -/
def selectionApply (mode : String) (current found : Finset FeatureId) : Finset FeatureId :=
  if mode = "add" then current ∪ found
  else if mode = "replace" then found
  else if mode = "toggle" then (current \ found) ∪ (found \ current)
  else current ∪ found

/-- A screen-space point (`event.pos()`). -/
structure Point where
  x : Int
  y : Int
deriving DecidableEq, Repr

/-- Debounce-relevant state of the tool: the single pending hover
point (`self._pending_pos`), the armed single-shot timer's fire time
(`self._hover_timer`, `none` when the timer is not armed), and the log
of pipeline executions together with the point each used. -/
structure EngineState where
  pending_pos : Option Point
  timer_deadline : Option Nat
  runs : List Point
deriving DecidableEq, Repr

/-- State right after `__init__` (lines 84-88): no pending point, no
armed timer, no pipeline run yet. -/
def initialEngineState : EngineState :=
  { pending_pos := none, timer_deadline := none, runs := [] }

/-- `canvasMoveEvent` (lines 236-241): overwrite the pending position
and (re)start the single-shot timer, so it now fires `delay` ms after
`now`. -/
def canvasMoveEvent (delay now : Nat) (p : Point) (s : EngineState) : EngineState :=
  { s with pending_pos := some p, timer_deadline := some (now + delay) }

/-- The single-shot timer firing: it disarms, and `_do_selection`
(lines 243-249) runs the pipeline for the pending point unless that
point is `None`.  Note the code does not reset `_pending_pos` after
processing it. -/
def timerFire (s : EngineState) : EngineState :=
  match s.pending_pos with
  | none => { s with timer_deadline := none }
  | some p => { s with timer_deadline := none, runs := s.runs ++ [p] }

/-- `deactivate` (lines 405-410): `self._hover_timer.stop()` disarms
the timer; `_pending_pos` is left as it is. -/
def deactivate (s : EngineState) : EngineState :=
  { s with timer_deadline := none }

/-- The armed timer fires now (at time `t`) exactly when its deadline
has already been reached. -/
def fireIfDue (t : Nat) (s : EngineState) : EngineState :=
  match s.timer_deadline with
  | some d => if d ≤ t then timerFire s else s
  | none => s

/-- Drive the engine through a timed sequence of mouse moves.  Before
each move is delivered, the armed timer fires if its deadline has
already been reached. -/
def runBurst (delay : Nat) (s : EngineState) : List (Nat × Point) → EngineState
  | [] => s
  | (t, p) :: rest => runBurst delay (canvasMoveEvent delay t p (fireIfDue t s)) rest

/-- The moves of a burst are in time order and consecutive moves are
spaced strictly closer than `delay`. -/
def gapsOk (delay : Nat) : List (Nat × Point) → Bool
  | [] => true
  | [_] => true
  | m1 :: m2 :: rest =>
      decide (m1.1 ≤ m2.1) && decide (m2.1 < m1.1 + delay) && gapsOk delay (m2 :: rest)

/-- The last point of a burst written as head plus tail. -/
def lastPoint (m : Nat × Point) : List (Nat × Point) → Point
  | [] => m.2
  | m2 :: rest => lastPoint m2 rest

/-- Configuration stored on the tool object, from `__init__`
(`map_tool_select_circle.py` lines 58-66).  Python floats are embedded
as `Rat`. -/
structure ToolConfig where
  radius_pixels : Int
  radius_map_units : Rat
  unit_mode : String
  circle_segments : Int
  restrict_mode : String
  selection_mode : String
  show_rubber_band : Bool
deriving DecidableEq, Repr

/-- `__init__` (lines 58-66): `radius_pixels` is clamped with
`max(1, int(...))`; every other argument is stored as given, with no
validation of `radius_map_units`, `unit_mode`, `restrict_mode` or
`selection_mode`. -/
def initTool (radius_pixels : Int) (radius_map_units : Rat) (unit_mode : String)
    (circle_segments : Int) (restrict_mode : String) (selection_mode : String)
    (show_rubber_band : Bool) : ToolConfig :=
  { radius_pixels := max 1 radius_pixels
    radius_map_units := radius_map_units
    unit_mode := unit_mode
    circle_segments := circle_segments
    restrict_mode := restrict_mode
    selection_mode := selection_mode
    show_rubber_band := show_rubber_band }

/-- `setRadius` (lines 101-113): a given pixel radius is clamped to at
least 1; a given map-unit radius is stored unvalidated; a given unit
mode is stored only when it is `"pixels"` or `"map_units"`. -/
def setRadius (c : ToolConfig) (pixel_radius : Option Int) (mapunit_radius : Option Rat)
    (unit_mode : Option String) : ToolConfig :=
  let c1 := match pixel_radius with
    | some p => { c with radius_pixels := max 1 p }
    | none => c
  let c2 := match mapunit_radius with
    | some m => { c1 with radius_map_units := m }
    | none => c1
  match unit_mode with
  | some u => if u = "pixels" ∨ u = "map_units" then { c2 with unit_mode := u } else c2
  | none => c2

/-- `setRestrictMode` (lines 115-118): stored only when one of
`"all"`, `"visible"`, `"active"`. -/
def setRestrictMode (c : ToolConfig) (restrict_mode : String) : ToolConfig :=
  if restrict_mode = "all" ∨ restrict_mode = "visible" ∨ restrict_mode = "active" then
    { c with restrict_mode := restrict_mode }
  else c

/-- `setSelectionMode` (lines 120-123): stored only when one of
`"add"`, `"replace"`, `"toggle"`. -/
def setSelectionMode (c : ToolConfig) (selection_mode : String) : ToolConfig :=
  if selection_mode = "add" ∨ selection_mode = "replace" ∨ selection_mode = "toggle" then
    { c with selection_mode := selection_mode }
  else c

/-- `setShowRubberBand` (lines 125-131). -/
def setShowRubberBand (c : ToolConfig) (visible : Bool) : ToolConfig :=
  { c with show_rubber_band := visible }

/-- One public setter call with arbitrary arguments. -/
inductive SetterOp where
  | radius (pixel_radius : Option Int) (mapunit_radius : Option Rat) (unit_mode : Option String)
  | restrict (restrict_mode : String)
  | selection (selection_mode : String)
  | rubberBand (visible : Bool)

/-- Dispatch one setter call. -/
def applyOp (c : ToolConfig) : SetterOp → ToolConfig
  | SetterOp.radius p m u => setRadius c p m u
  | SetterOp.restrict r => setRestrictMode c r
  | SetterOp.selection s => setSelectionMode c s
  | SetterOp.rubberBand b => setShowRubberBand c b

/-- An arbitrary sequence of setter calls after construction. -/
def applyOps (c : ToolConfig) (ops : List SetterOp) : ToolConfig :=
  ops.foldl applyOp c

/-- The three mode fields hold enumerated values. -/
def modesValid (c : ToolConfig) : Prop :=
  (c.unit_mode = "pixels" ∨ c.unit_mode = "map_units")
  ∧ (c.restrict_mode = "all" ∨ c.restrict_mode = "visible" ∨ c.restrict_mode = "active")
  ∧ (c.selection_mode = "add" ∨ c.selection_mode = "replace" ∨ c.selection_mode = "toggle")

/-- A geometry, embedded as a finite set of integer points.  This is
rich enough to give exact intersection and bounding boxes their real
meaning while staying decidable. -/
abbrev Geom := Finset (Int × Int)

/-- An axis-aligned bounding rectangle. -/
structure Rect where
  xmin : Int
  xmax : Int
  ymin : Int
  ymax : Int
deriving DecidableEq, Repr

/-- `geometry.boundingBox()`: the tight bounding rectangle of a
geometry; an empty geometry has a null rectangle (`none`). -/
def bbox (g : Geom) : Option Rect :=
  if h : g.Nonempty then
    some { xmin := g.inf' h Prod.fst, xmax := g.sup' h Prod.fst,
           ymin := g.inf' h Prod.snd, ymax := g.sup' h Prod.snd }
  else none

/-- Two rectangles overlap when their projections on both axes do. -/
def rectOverlap (a b : Rect) : Bool :=
  decide (a.xmin ≤ b.xmax) && decide (b.xmin ≤ a.xmax) &&
    decide (a.ymin ≤ b.ymax) && decide (b.ymin ≤ a.ymax)

/-- Overlap of possibly-null bounding rectangles: a null rectangle
overlaps nothing. -/
def bboxOverlap : Option Rect → Option Rect → Bool
  | some a, some b => rectOverlap a b
  | _, _ => false

/-- `g.intersects(other)`: exact intersection of two geometries. -/
def geomIntersects (a b : Geom) : Bool := decide (a ∩ b).Nonempty

/-- A vector feature: its id and its geometry (`None` geometries are
legal and are skipped by the pipeline). -/
structure Feature where
  fid : FeatureId
  geom : Option Geom
deriving DecidableEq

/-- A layer as the pipeline sees it, together with the failure points
the error-handling claims quantify over: `transform`, index queries,
per-feature fetches, the fallback feature request and the selection
commit can each fail. -/
structure Layer where
  lid : Nat
  isVector : Bool
  selectable : Bool
  nodeVisible : Bool
  crs : Nat
  features : List Feature
  indexBuildOk : Bool
  indexQueryFails : Bool
  fetchFailIds : List FeatureId
  featuresReqFails : Bool
  commitOk : Bool
  currentSelection : Finset FeatureId
deriving DecidableEq

/-- Layer eligibility, identical in `rebuildIndexes` (lines 144-163)
and `_do_selection` (lines 279-298): vector layers only, the
selectable flag is respected, `"visible"` additionally requires a
visible layer-tree node, `"active"` requires the layer to be the
canvas's current layer (no current layer means no layer matches). -/
def eligible (restrict_mode : String) (currentLayer : Option Nat) (L : Layer) : Bool :=
  L.isVector && L.selectable &&
    (if restrict_mode = "visible" then L.nodeVisible
     else if restrict_mode = "active" then
       match currentLayer with
       | none => false
       | some cid => decide (cid = L.lid)
     else true)

/-- The loop body of `rebuildIndexes` (lines 144-182): walk the
project's layers; for each eligible layer either record its index (on
success) or log a warning and skip it (on failure).  Returns the ids
with an index and the ids warned about. -/
def rebuildLoop (restrict_mode : String) (currentLayer : Option Nat) :
    List Layer → List Nat × List Nat
  | [] => ([], [])
  | L :: rest =>
      let r := rebuildLoop restrict_mode currentLayer rest
      if eligible restrict_mode currentLayer L then
        if L.indexBuildOk then (L.lid :: r.1, r.2) else (r.1, L.lid :: r.2)
      else r

/-- `rebuildIndexes` (lines 133-188): the cache is cleared first
(`self.layer_indexes.clear()`), so the old cache contents never
influence the result, then the loop repopulates it. -/
def rebuildIndexes (restrict_mode : String) (currentLayer : Option Nat)
    (layers : List Layer) (_oldCache : List Nat) : List Nat × List Nat :=
  rebuildLoop restrict_mode currentLayer layers

/-- Host spatial-index lookup `index.intersects(bbox)` (external
collaborator, spec section 4.1): the ids of the layer's features whose
bounding box overlaps the query rectangle.  Features with no geometry
have a null bounding box and are never candidates. -/
def indexLookup (features : List Feature) (r : Option Rect) : List FeatureId :=
  (features.filter fun f =>
    match f.geom with
    | none => false
    | some g => bboxOverlap (bbox g) r).map Feature.fid

/-- `layer.getFeature(fid)` with the per-candidate failure point: a
fetch that raises is a skipped candidate, and an unknown id yields an
invalid feature whose null geometry is likewise skipped; both are
embedded as `none`. -/
def getFeature (L : Layer) (fid : FeatureId) : Option Feature :=
  if fid ∈ L.fetchFailIds then none
  else L.features.find? fun f => decide (f.fid = fid)

/-- The indexed path (lines 321-338): query the index for bounding-box
candidates (an index query that raises yields `[]`), then re-fetch
each candidate and keep it when its exact geometry intersects the
circle. -/
def verifiedListIndexed (L : Layer) (circleL : Geom) : List FeatureId :=
  let candidates := if L.indexQueryFails then [] else indexLookup L.features (bbox circleL)
  candidates.filterMap fun fid =>
    match getFeature L fid with
    | none => none
    | some f =>
        match f.geom with
        | none => none
        | some g => if geomIntersects g circleL then some f.fid else none

/-- The verified set of the indexed path. -/
def verifiedIdsIndexed (L : Layer) (circleL : Geom) : Finset FeatureId :=
  (verifiedListIndexed L circleL).toFinset

/-- The fallback path (lines 340-350): a feature request filtered by
the circle's bounding box (host semantics of `setFilterRect`: features
whose bounding box overlaps the rectangle), exact verification of each
feature; a request that raises makes the layer contribute nothing
(`except: continue`). -/
def verifiedIdsFallback (L : Layer) (circleL : Geom) : Option (Finset FeatureId) :=
  if L.featuresReqFails then none
  else some ((L.features.filterMap fun f =>
    match f.geom with
    | none => none
    | some g =>
        if bboxOverlap (bbox g) (bbox circleL) then
          if geomIntersects g circleL then some f.fid else none
        else none).toFinset)

/-- The commit step (lines 352-376): with a non-empty verified set,
read the current selection, apply the mode algebra and commit; a
commit that raises leaves the selection unchanged, contributes no
count, and logs a warning.  Returns the layer's selection after the
step, the count added to the run total, and whether a warning was
logged. -/
def commitStep (selection_mode : String) (commitOk : Bool)
    (current ids : Finset FeatureId) : Finset FeatureId × Nat × Bool :=
  if ids.Nonempty then
    if commitOk then (selectionApply selection_mode current ids, ids.card, false)
    else (current, 0, true)
  else (current, 0, false)

/-- Outcome of one eligible layer inside `_do_selection`. -/
structure LayerOutcome where
  newSelection : Finset FeatureId
  count : Nat
  warned : Bool
deriving DecidableEq

/-- One eligible layer's processing in `_do_selection`
(lines 300-376): transform the circle into the layer CRS (skipped when
the CRSs are equal; a failing transform skips the layer with a
warning), take the indexed path when the cache has an index for the
layer and the fallback path otherwise, then run the commit step. -/
def processLayer (selection_mode : String) (projCrs : Nat)
    (xform : Nat → Nat → Geom → Option Geom) (cache : List Nat)
    (circle : Geom) (L : Layer) : LayerOutcome :=
  let circleL? : Option Geom :=
    if L.crs = projCrs then some circle else xform projCrs L.crs circle
  match circleL? with
  | none => { newSelection := L.currentSelection, count := 0, warned := true }
  | some circleL =>
      let ids? : Option (Finset FeatureId) :=
        if L.lid ∈ cache then some (verifiedIdsIndexed L circleL)
        else verifiedIdsFallback L circleL
      match ids? with
      | none => { newSelection := L.currentSelection, count := 0, warned := false }
      | some ids =>
          let r := commitStep selection_mode L.commitOk L.currentSelection ids
          { newSelection := r.1, count := r.2.1, warned := r.2.2 }

/-- The layer loop of `_do_selection` (lines 279-391): ineligible
layers are passed over with their selection untouched; each eligible
layer is processed independently; the run accumulates the total count
and the warned layer ids. -/
def doSelectionLayers (restrict_mode selection_mode : String) (currentLayer : Option Nat)
    (projCrs : Nat) (xform : Nat → Nat → Geom → Option Geom) (cache : List Nat)
    (circle : Geom) : List Layer → List (Nat × Finset FeatureId) × Nat × List Nat
  | [] => ([], 0, [])
  | L :: rest =>
      let r := doSelectionLayers restrict_mode selection_mode currentLayer projCrs
        xform cache circle rest
      if eligible restrict_mode currentLayer L then
        let o := processLayer selection_mode projCrs xform cache circle L
        ((L.lid, o.newSelection) :: r.1, o.count + r.2.1,
          (if o.warned then [L.lid] else []) ++ r.2.2)
      else ((L.lid, L.currentSelection) :: r.1, r.2.1, r.2.2)

/-- `_compute_pixel_radius_for_cursor` (lines 191-200): in pixel mode
the configured pixel radius (clamped to at least 1); in map-unit mode
the map-unit radius divided by the canvas scale, rounded, clamped to
at least 1, falling back to the pixel radius when the scale is not
positive. -/
def computePixelRadiusForCursor (c : ToolConfig) (mapUnitsPerPixel : Rat) : Int :=
  if c.unit_mode = "pixels" then max 1 c.radius_pixels
  else if 0 < mapUnitsPerPixel then max 1 (round (c.radius_map_units / mapUnitsPerPixel))
  else max 1 c.radius_pixels

/-- Plugin-level state touched by activation: the tool configuration,
the index cache with its warning log, the pixel radius last drawn as
the cursor, whether the feedback overlay is shown, and whether the
tool is the canvas's active map tool. -/
structure PluginState where
  cfg : ToolConfig
  cache : List Nat
  warns : List Nat
  cursorRadius : Int
  overlayVisible : Bool
  toolActive : Bool

/-- `toggle_activation(True)` (`select_on_hover.py` lines 172-196)
followed by the host calling `activate` (`map_tool_select_circle.py`
lines 397-403): push the panel values through the four setters,
rebuild the index cache, make the tool the active map tool, recompute
the cursor radius, and show the feedback overlay if enabled. -/
def activateSequence (st : PluginState) (panel_pixel : Int) (panel_mapunit : Rat)
    (panel_unit panel_restrict panel_selection : String) (panel_rubber : Bool)
    (mapUnitsPerPixel : Rat) (currentLayer : Option Nat) (layers : List Layer) : PluginState :=
  let cfg1 := setRadius st.cfg (some panel_pixel) (some panel_mapunit) (some panel_unit)
  let cfg2 := setRestrictMode cfg1 panel_restrict
  let cfg3 := setSelectionMode cfg2 panel_selection
  let cfg4 := setShowRubberBand cfg3 panel_rubber
  let rb := rebuildIndexes cfg4.restrict_mode currentLayer layers st.cache
  { cfg := cfg4
    cache := rb.1
    warns := rb.2
    cursorRadius := computePixelRadiusForCursor cfg4 mapUnitsPerPixel
    overlayVisible := cfg4.show_rubber_band
    toolActive := true }

/-- The exact result: the ids of the features whose exact geometry
intersects the circle (features without geometry skipped). -/
def exactVerifiedList (features : List Feature) (circleL : Geom) : List FeatureId :=
  features.filterMap fun f =>
    match f.geom with
    | none => none
    | some g => if geomIntersects g circleL then some f.fid else none

/-- A concrete healthy layer used by witnesses: two features, one at
the origin and one far away. -/
def layerPlain : Layer :=
  { lid := 1, isVector := true, selectable := true, nodeVisible := true, crs := 0,
    features := [{ fid := 10, geom := some {(0, 0)} }, { fid := 11, geom := some {(5, 5)} }],
    indexBuildOk := true, indexQueryFails := false, fetchFailIds := [],
    featuresReqFails := false, commitOk := true, currentSelection := {10} }

/-- As `layerPlain` but the selection commit raises. -/
def layerCommitFail : Layer := { layerPlain with lid := 2, commitOk := false }

/-- As `layerPlain` but fetching feature 10 raises. -/
def layerFetchFail : Layer := { layerPlain with lid := 3, fetchFailIds := [10] }

/-- As `layerPlain` but in a different CRS, so a transform is needed. -/
def layerOtherCrs : Layer := { layerPlain with lid := 4, crs := 1 }

/-- As `layerPlain` but index construction raises. -/
def layerBuildFail : Layer := { layerPlain with lid := 5, indexBuildOk := false }

lemma fireIfDue_eq (t : Nat) (s : EngineState)
    (h : ∀ d, s.timer_deadline = some d → t < d) : fireIfDue t s = s := by
  rw [fireIfDue]
  cases hd : s.timer_deadline with
  | none => rfl
  | some d =>
      have := h d hd
      simp [Nat.not_le.mpr this]

lemma gapsOk_cons_cons (delay : Nat) (m1 m2 : Nat × Point) (rest : List (Nat × Point))
    (h : gapsOk delay (m1 :: m2 :: rest) = true) :
    m1.1 ≤ m2.1 ∧ m2.1 < m1.1 + delay ∧ gapsOk delay (m2 :: rest) = true := by
  rw [gapsOk] at h
  simp only [Bool.and_eq_true, decide_eq_true_eq] at h
  exact ⟨h.1.1, h.1.2, h.2⟩

lemma runBurst_spec (delay : Nat) :
    ∀ (rest : List (Nat × Point)) (first : Nat × Point) (s : EngineState),
      gapsOk delay (first :: rest) = true →
      (∀ d, s.timer_deadline = some d → first.1 < d) →
      timerFire (runBurst delay s (first :: rest))
        = { pending_pos := some (lastPoint first rest), timer_deadline := none,
            runs := s.runs ++ [lastPoint first rest] } := by
  intro rest
  induction rest with
  | nil =>
      intro first s _ hguard
      rw [runBurst, runBurst, fireIfDue_eq first.1 s hguard]
      simp [canvasMoveEvent, timerFire, lastPoint]
  | cons m2 rest2 ih =>
      intro first s hgaps hguard
      obtain ⟨_, hlt, hgaps2⟩ := gapsOk_cons_cons delay first m2 rest2 hgaps
      rw [runBurst, fireIfDue_eq first.1 s hguard]
      have := ih m2 (canvasMoveEvent delay first.1 first.2 s) hgaps2 (by
        intro d hd
        simp [canvasMoveEvent] at hd
        omega)
      simpa [canvasMoveEvent, lastPoint] using this

lemma applyOp_radius_pixels (c : ToolConfig) (op : SetterOp)
    (h : 1 ≤ c.radius_pixels) : 1 ≤ (applyOp c op).radius_pixels := by
  cases op with
  | radius p m u =>
      cases p <;> cases m <;> cases u <;>
        simp only [applyOp, setRadius] <;> (try split) <;> simp_all [le_max_iff]
  | restrict r =>
      simp only [applyOp, setRestrictMode]
      split <;> exact h
  | selection s =>
      simp only [applyOp, setSelectionMode]
      split <;> exact h
  | rubberBand b => exact h

lemma applyOp_modesValid (c : ToolConfig) (op : SetterOp)
    (h : modesValid c) : modesValid (applyOp c op) := by
  obtain ⟨h1, h2, h3⟩ := h
  cases op with
  | radius p m u =>
      cases p <;> cases m <;> cases u <;>
        simp only [applyOp, setRadius] <;> first
          | exact ⟨h1, h2, h3⟩
          | (split
             · rename_i hu
               exact ⟨hu, h2, h3⟩
             · exact ⟨h1, h2, h3⟩)
  | restrict r =>
      simp only [applyOp, setRestrictMode]
      split
      · rename_i hr
        exact ⟨h1, hr, h3⟩
      · exact ⟨h1, h2, h3⟩
  | selection s =>
      simp only [applyOp, setSelectionMode]
      split
      · rename_i hs
        exact ⟨h1, h2, hs⟩
      · exact ⟨h1, h2, h3⟩
  | rubberBand b => exact ⟨h1, h2, h3⟩

/-- The bounding-box pre-filter is sound: exactly-intersecting
geometries always have overlapping bounding boxes, so bounding-box
candidates are a superset of the exact results. -/
lemma intersects_bboxOverlap (a b : Geom) (h : geomIntersects a b = true) :
    bboxOverlap (bbox a) (bbox b) = true := by
  have hne : (a ∩ b).Nonempty := by
    simpa [geomIntersects] using h
  obtain ⟨q, hq⟩ := hne
  have hqa : q ∈ a := (Finset.mem_inter.mp hq).1
  have hqb : q ∈ b := (Finset.mem_inter.mp hq).2
  have ha : a.Nonempty := ⟨q, hqa⟩
  have hb : b.Nonempty := ⟨q, hqb⟩
  rw [bbox, bbox, dif_pos ha, dif_pos hb]
  simp only [bboxOverlap, rectOverlap, Bool.and_eq_true, decide_eq_true_eq]
  refine ⟨⟨⟨?_, ?_⟩, ?_⟩, ?_⟩
  · exact le_trans (Finset.inf'_le Prod.fst hqa) (Finset.le_sup' Prod.fst hqb)
  · exact le_trans (Finset.inf'_le Prod.fst hqb) (Finset.le_sup' Prod.fst hqa)
  · exact le_trans (Finset.inf'_le Prod.snd hqa) (Finset.le_sup' Prod.snd hqb)
  · exact le_trans (Finset.inf'_le Prod.snd hqb) (Finset.le_sup' Prod.snd hqa)

lemma rebuildLoop_eq (rm : String) (cl : Option Nat) (layers : List Layer) :
    rebuildLoop rm cl layers
      = ((layers.filter fun L => eligible rm cl L && L.indexBuildOk).map Layer.lid,
         (layers.filter fun L => eligible rm cl L && !L.indexBuildOk).map Layer.lid) := by
  induction layers with
  | nil => rfl
  | cons L rest ih =>
      rw [rebuildLoop]
      by_cases he : eligible rm cl L = true
      · by_cases hb : L.indexBuildOk = true <;>
          simp [he, hb, ih, List.filter_cons]
      · simp [he, ih, List.filter_cons]

lemma doSelectionLayers_eq (rm sm : String) (cl : Option Nat) (projCrs : Nat)
    (xform : Nat → Nat → Geom → Option Geom) (cache : List Nat) (circle : Geom)
    (layers : List Layer) :
    doSelectionLayers rm sm cl projCrs xform cache circle layers
      = (layers.map fun L => (L.lid,
            if eligible rm cl L then (processLayer sm projCrs xform cache circle L).newSelection
            else L.currentSelection),
         (layers.map fun L =>
            if eligible rm cl L then (processLayer sm projCrs xform cache circle L).count
            else 0).sum,
         layers.filterMap fun L =>
            if eligible rm cl L && (processLayer sm projCrs xform cache circle L).warned
            then some L.lid else none) := by
  induction layers with
  | nil => rfl
  | cons L rest ih =>
      rw [doSelectionLayers]
      by_cases he : eligible rm cl L = true
      · by_cases hw : (processLayer sm projCrs xform cache circle L).warned = true <;>
          simp [he, hw, ih, List.filterMap_cons]
      · simp [he, ih, List.filterMap_cons]

lemma filterMap_filter_eq {α β : Type} (p : α → Bool) (f : α → Option β) (l : List α) :
    (l.filter p).filterMap f = l.filterMap fun a => if p a then f a else none := by
  induction l with
  | nil => rfl
  | cons a l ih =>
      by_cases h : p a = true <;>
        simp [List.filter_cons, h, List.filterMap_cons, ih]

lemma find?_of_mem_nodup (l : List Feature) (hnd : (l.map Feature.fid).Nodup)
    (f : Feature) (hm : f ∈ l) :
    (l.find? fun f2 => decide (f2.fid = f.fid)) = some f := by
  induction l with
  | nil => cases hm
  | cons g rest ih =>
      rw [List.map_cons, List.nodup_cons] at hnd
      by_cases hg : g.fid = f.fid
      · have : f = g := by
          rcases List.mem_cons.mp hm with h | h
          · exact h
          · exfalso
            exact hnd.1 (hg ▸ (List.mem_map.mpr ⟨f, h, rfl⟩))
        simp [List.find?_cons, hg, this]
      · have hmem : f ∈ rest := by
          rcases List.mem_cons.mp hm with h | h
          · exfalso; apply hg; rw [h]
          · exact h
        simp [List.find?_cons, hg]
        exact ih hnd.2 hmem

lemma verifiedListIndexed_eq_exact (L : Layer) (circleL : Geom)
    (hq : L.indexQueryFails = false) (hf : L.fetchFailIds = [])
    (hnd : (L.features.map Feature.fid).Nodup) :
    verifiedListIndexed L circleL = exactVerifiedList L.features circleL := by
  rw [verifiedListIndexed]
  simp only [hq, Bool.false_eq_true, if_false, indexLookup, List.filterMap_map]
  rw [filterMap_filter_eq]
  rw [exactVerifiedList]
  apply List.filterMap_congr
  intro f hmem
  have hget : getFeature L f.fid = some f := by
    rw [getFeature, hf]
    simp only [List.not_mem_nil, if_false]
    exact find?_of_mem_nodup L.features hnd f hmem
  cases hgeom : f.geom with
  | none => simp [Function.comp, hget, hgeom]
  | some g =>
      by_cases hbb : bboxOverlap (bbox g) (bbox circleL) = true
      · by_cases hi : geomIntersects g circleL = true <;>
          simp [Function.comp, hget, hgeom, hbb, hi]
      · have hni : geomIntersects g circleL = false := by
          cases hgi : geomIntersects g circleL with
          | false => rfl
          | true => exact absurd (intersects_bboxOverlap g circleL hgi) hbb
        simp [Function.comp, hget, hgeom, hbb, hni]

lemma verifiedFallback_eq_exact (L : Layer) (circleL : Geom)
    (hr : L.featuresReqFails = false) :
    verifiedIdsFallback L circleL = some (exactVerifiedList L.features circleL).toFinset := by
  rw [verifiedIdsFallback]
  simp only [hr, Bool.false_eq_true, if_false, Option.some.injEq]
  congr 1
  rw [exactVerifiedList]
  apply List.filterMap_congr
  intro f _
  cases hgeom : f.geom with
  | none => rfl
  | some g =>
      by_cases hi : geomIntersects g circleL = true
      · simp [hi, intersects_bboxOverlap g circleL hi]
      · by_cases hbb : bboxOverlap (bbox g) (bbox circleL) = true <;>
          simp [hi, hbb]

lemma processLayer_transform_fail (sm : String) (projCrs : Nat)
    (xform : Nat → Nat → Geom → Option Geom) (cache : List Nat) (circle : Geom) (L : Layer)
    (h : (if L.crs = projCrs then some circle else xform projCrs L.crs circle) = none) :
    processLayer sm projCrs xform cache circle L
      = { newSelection := L.currentSelection, count := 0, warned := true } := by
  rw [processLayer]
  simp only [h]

lemma processLayer_commit_fail (sm : String) (projCrs : Nat)
    (xform : Nat → Nat → Geom → Option Geom) (cache : List Nat) (circle : Geom) (L : Layer)
    (hc : L.commitOk = false) :
    (processLayer sm projCrs xform cache circle L).newSelection = L.currentSelection
    ∧ (processLayer sm projCrs xform cache circle L).count = 0 := by
  rw [processLayer]
  cases hcl : (if L.crs = projCrs then some circle else xform projCrs L.crs circle) with
  | none => simp [hcl]
  | some circleL =>
      simp only [hcl]
      cases hids : (if L.lid ∈ cache then some (verifiedIdsIndexed L circleL)
          else verifiedIdsFallback L circleL) with
      | none => simp [hids]
      | some ids =>
          simp only [hids]
          by_cases hne : ids.Nonempty <;> simp [commitStep, hc, hne]

lemma processLayer_no_warn (sm : String) (projCrs : Nat)
    (xform : Nat → Nat → Geom → Option Geom) (cache : List Nat) (circle : Geom) (L : Layer)
    (hc : L.commitOk = true)
    (htr : (if L.crs = projCrs then some circle else xform projCrs L.crs circle) ≠ none) :
    (processLayer sm projCrs xform cache circle L).warned = false := by
  rw [processLayer]
  cases hcl : (if L.crs = projCrs then some circle else xform projCrs L.crs circle) with
  | none => exact absurd hcl htr
  | some circleL =>
      simp only [hcl]
      cases hids : (if L.lid ∈ cache then some (verifiedIdsIndexed L circleL)
          else verifiedIdsFallback L circleL) with
      | none => simp [hids]
      | some ids =>
          simp only [hids]
          by_cases hne : ids.Nonempty <;> simp [commitStep, hc, hne]

lemma fetch_fail_not_verified (L : Layer) (circleL : Geom) (fid : FeatureId)
    (hmem : fid ∈ L.fetchFailIds) : fid ∉ verifiedIdsIndexed L circleL := by
  intro hx
  rw [verifiedIdsIndexed, List.mem_toFinset, verifiedListIndexed] at hx
  simp only [List.mem_filterMap] at hx
  obtain ⟨cand, _, hf⟩ := hx
  cases hg : getFeature L cand with
  | none => rw [hg] at hf; exact Option.noConfusion hf
  | some f =>
      rw [hg] at hf
      have hf2 : (match f.geom with
          | none => none
          | some g => if geomIntersects g circleL = true then some f.fid else none)
            = some fid := hf
      have hclean : cand ∉ L.fetchFailIds ∧
          (L.features.find? fun f2 => decide (f2.fid = cand)) = some f := by
        rw [getFeature] at hg
        by_cases hmem2 : cand ∈ L.fetchFailIds
        · rw [if_pos hmem2] at hg; exact Option.noConfusion hg
        · rw [if_neg hmem2] at hg; exact ⟨hmem2, hg⟩
      have hfidc : f.fid = cand := by
        have := List.find?_some hclean.2
        simpa using this
      have hfid : f.fid = fid := by
        cases hgeom : f.geom with
        | none => rw [hgeom] at hf2; exact Option.noConfusion hf2
        | some g =>
            rw [hgeom] at hf2
            have hf3 : (if geomIntersects g circleL = true then some f.fid else none)
                = some fid := hf2
            by_cases hi : geomIntersects g circleL = true
            · rw [if_pos hi] at hf3
              exact Option.some.inj hf3
            · rw [if_neg hi] at hf3
              exact Option.noConfusion hf3
      exact hclean.1 (by rw [← hfidc, hfid]; exact hmem)

lemma eligible_active_none (L : Layer) : eligible "active" none L = false := by
  rw [eligible]
  rw [if_neg (by decide : ¬ ("active" : String) = "visible")]
  rw [if_pos rfl]
  simp

/-- C1: For every selection mode in \x7badd, replace, toggle\x7d, the
committed selection is: add, the union of current and found; replace,
the found set alone; toggle, the symmetric difference.  Hence the add
result contains both arguments, replace returns exactly the found set,
toggle is symmetric, toggling with the empty set is the identity, and
toggling a set with itself clears it.  The final conjunct records that
committing one layer never touches the other layers' selections: the
run's result for the remaining layers is exactly the run over the
remaining layers alone. -/
theorem C1_mode_algebra :
    (∀ C F : Finset FeatureId, selectionApply "add" C F = C ∪ F)
    ∧ (∀ C F : Finset FeatureId, C ⊆ selectionApply "add" C F)
    ∧ (∀ C F : Finset FeatureId, F ⊆ selectionApply "add" C F)
    ∧ (∀ C F : Finset FeatureId, selectionApply "replace" C F = F)
    ∧ (∀ C F : Finset FeatureId, selectionApply "toggle" C F = (C \ F) ∪ (F \ C))
    ∧ (∀ C F : Finset FeatureId, selectionApply "toggle" C F = selectionApply "toggle" F C)
    ∧ (∀ C : Finset FeatureId, selectionApply "toggle" C ∅ = C)
    ∧ (∀ C : Finset FeatureId, selectionApply "toggle" C C = ∅)
    ∧ (∀ (rm sm : String) (cl : Option Nat) (projCrs : Nat)
        (xform : Nat → Nat → Geom → Option Geom) (cache : List Nat) (circle : Geom)
        (L : Layer) (rest : List Layer),
        (doSelectionLayers rm sm cl projCrs xform cache circle (L :: rest)).1.tail
          = (doSelectionLayers rm sm cl projCrs xform cache circle rest).1) := by
  refine ⟨?_, ?_, ?_, ?_, ?_, ?_, ?_, ?_, ?_⟩
  · intro C F; simp [selectionApply]
  · intro C F; simp [selectionApply]
  · intro C F; simp [selectionApply]
  · intro C F; simp [selectionApply]
  · intro C F; simp [selectionApply]
  · intro C F
    simp only [selectionApply]
    norm_num
    exact Finset.union_comm _ _
  · intro C; simp [selectionApply]
  · intro C; simp [selectionApply]
  · intro rm sm cl projCrs xform cache circle L rest
    rw [doSelectionLayers]
    by_cases he : eligible rm cl L = true <;> simp [he]

/-- C2: for any non-negative debounce delay and any non-empty burst of
mouse moves each spaced strictly closer than the delay, starting from
the idle initial state, exactly one pipeline run happens once the
burst is over, and it uses only the last point of the burst; each move
overwrote the single pending point and restarted the single-shot
timer from zero. -/
theorem C2_debounce (delay : Nat) (first : Nat × Point) (rest : List (Nat × Point))
    (h : gapsOk delay (first :: rest) = true) :
    timerFire (runBurst delay initialEngineState (first :: rest))
      = { pending_pos := some (lastPoint first rest), timer_deadline := none,
          runs := [lastPoint first rest] }
    ∧ (∀ (t : Nat) (p : Point) (s : EngineState),
        (canvasMoveEvent delay t p s).pending_pos = some p
        ∧ (canvasMoveEvent delay t p s).timer_deadline = some (t + delay)) := by
  constructor
  · have := runBurst_spec delay rest first initialEngineState h (by
      intro d hd
      simp [initialEngineState] at hd)
    simpa [initialEngineState] using this
  · intro t p s
    exact ⟨rfl, rfl⟩

/-- Witness for C2 at a concrete burst: delay 5, moves at times 0, 3,
6 (gaps 3 < 5), last point (9, 9). -/
theorem C2_debounce_witness :
    timerFire (runBurst 5 initialEngineState
        [(0, ⟨1, 1⟩), (3, ⟨2, 2⟩), (6, ⟨9, 9⟩)])
      = { pending_pos := some ⟨9, 9⟩, timer_deadline := none, runs := [⟨9, 9⟩] } :=
  (C2_debounce 5 (0, ⟨1, 1⟩) [(3, ⟨2, 2⟩), (6, ⟨9, 9⟩)] (by decide)).1

/-- Counterexample to C4: `_do_selection` does not reset
`_pending_pos` after processing it, and `deactivate` only stops the
timer (`self._hover_timer.stop()`) without discarding the pending
point.  At a concrete armed state, the pending point survives both the
pipeline run and deactivation. -/
theorem C4_counterexample :
    (timerFire { pending_pos := some ⟨1, 2⟩, timer_deadline := some 5, runs := [] }).pending_pos
        = some ⟨1, 2⟩
    ∧ (deactivate { pending_pos := some ⟨1, 2⟩, timer_deadline := some 5, runs := [] }).pending_pos
        = some ⟨1, 2⟩ := by
  constructor <;> rfl

/-- C4 amended: the pending hover point is held in a single
last-write-wins slot, and deactivation cancels any armed timer so the
pending point can no longer trigger a run; but the pending point is
not cleared by a pipeline run and not discarded on deactivation — it
simply persists (and is harmless, since a run is only triggered by the
single-shot timer, which every mouse move re-arms after overwriting
the point). -/
theorem C4_pending_amended (s : EngineState) (delay t : Nat) (p : Point) :
    (canvasMoveEvent delay t p s).pending_pos = some p
    ∧ (deactivate s).timer_deadline = none
    ∧ (fireIfDue t (deactivate s)).runs = s.runs
    ∧ (timerFire s).pending_pos = s.pending_pos
    ∧ (deactivate s).pending_pos = s.pending_pos := by
  refine ⟨rfl, rfl, rfl, ?_, rfl⟩
  rw [timerFire]
  cases s.pending_pos <;> rfl

/-- Counterexample to C3: the invariant does not hold at every
reachable state.  `setRadius` stores a non-positive map-unit radius
unvalidated (reachable from a perfectly valid construction), and the
constructor stores an arbitrary `unit_mode` string unvalidated. -/
theorem C3_counterexample :
    (setRadius (initTool 20 10 "pixels" 32 "visible" "add" true)
        none (some (-2)) none).radius_map_units = -2
    ∧ ¬ (0 < (setRadius (initTool 20 10 "pixels" 32 "visible" "add" true)
        none (some (-2)) none).radius_map_units)
    ∧ (initTool 20 10 "bogus" 32 "visible" "add" true).unit_mode = "bogus" := by
  refine ⟨rfl, ?_, rfl⟩
  norm_num [setRadius, initTool]

/-- C3 amended: `radius_pixels >= 1` holds at every reachable state
(the constructor and `setRadius` clamp it), and the three mode fields
hold enumerated values at every state reachable by setter calls from a
construction whose mode arguments were valid, because the setters
reject invalid mode strings.  However the constructor itself stores
the mode strings unvalidated, and `radius_map_units` is stored with no
positivity check by both the constructor and `setRadius`. -/
theorem C3_invariant_amended (p : Int) (m : Rat) (u : String) (cs : Int)
    (rm sm : String) (b : Bool) (ops : List SetterOp)
    (hu : u = "pixels" ∨ u = "map_units")
    (hr : rm = "all" ∨ rm = "visible" ∨ rm = "active")
    (hs : sm = "add" ∨ sm = "replace" ∨ sm = "toggle") :
    1 ≤ (applyOps (initTool p m u cs rm sm b) ops).radius_pixels
    ∧ modesValid (applyOps (initTool p m u cs rm sm b) ops) := by
  have key : ∀ (l : List SetterOp) (c : ToolConfig),
      1 ≤ c.radius_pixels → modesValid c →
      1 ≤ (applyOps c l).radius_pixels ∧ modesValid (applyOps c l) := by
    intro l
    induction l with
    | nil => intro c h1 h2; exact ⟨h1, h2⟩
    | cons op rest ih =>
        intro c h1 h2
        exact ih (applyOp c op) (applyOp_radius_pixels c op h1) (applyOp_modesValid c op h2)
  refine key ops (initTool p m u cs rm sm b) ?_ ?_
  · simp [initTool, le_max_iff]
  · exact ⟨hu, hr, hs⟩

/-- Witness for C3 amended: construct with valid modes, then call a
setter with an invalid restrict mode; the clamp and the enumerated
modes survive. -/
theorem C3_invariant_amended_witness :
    1 ≤ (applyOps (initTool 20 10 "pixels" 32 "visible" "add" true)
          [SetterOp.restrict "bogus", SetterOp.radius (some 0) none none]).radius_pixels
    ∧ modesValid (applyOps (initTool 20 10 "pixels" 32 "visible" "add" true)
          [SetterOp.restrict "bogus", SetterOp.radius (some 0) none none]) :=
  C3_invariant_amended 20 10 "pixels" 32 "visible" "add" true
    [SetterOp.restrict "bogus", SetterOp.radius (some 0) none none]
    (Or.inl rfl) (Or.inr (Or.inl rfl)) (Or.inl rfl)

/-- C5 amended: in a pipeline run over any layer list, each layer's
outcome is a function of that layer alone, so no per-layer failure
aborts or alters the processing of the remaining layers or escapes the
pipeline (first conjunct: the run is literally the independent
per-layer map); a failed CRS transform skips the layer with a warning
and leaves its selection unchanged (second conjunct); a failed
selection commit leaves that layer's selection unchanged and
contributes no count (third conjunct); a candidate whose feature fetch
fails is skipped and never verified (fourth conjunct); but — against
the claim's wording — a fetch failure is skipped silently: when the
transform and the commit succeed, the layer logs no warning at all,
whatever fetch or request failures occurred (fifth conjunct). -/
theorem C5_failure_isolation (rm sm : String) (cl : Option Nat) (projCrs : Nat)
    (xform : Nat → Nat → Geom → Option Geom) (cache : List Nat) (circle : Geom) :
    (∀ layers : List Layer,
        doSelectionLayers rm sm cl projCrs xform cache circle layers
          = (layers.map fun L => (L.lid,
                if eligible rm cl L then (processLayer sm projCrs xform cache circle L).newSelection
                else L.currentSelection),
             (layers.map fun L =>
                if eligible rm cl L then (processLayer sm projCrs xform cache circle L).count
                else 0).sum,
             layers.filterMap fun L =>
                if eligible rm cl L && (processLayer sm projCrs xform cache circle L).warned
                then some L.lid else none))
    ∧ (∀ L : Layer,
        (if L.crs = projCrs then some circle else xform projCrs L.crs circle) = none →
        processLayer sm projCrs xform cache circle L
          = { newSelection := L.currentSelection, count := 0, warned := true })
    ∧ (∀ L : Layer, L.commitOk = false →
        (processLayer sm projCrs xform cache circle L).newSelection = L.currentSelection
        ∧ (processLayer sm projCrs xform cache circle L).count = 0)
    ∧ (∀ (L : Layer) (circleL : Geom) (fid : FeatureId),
        fid ∈ L.fetchFailIds → fid ∉ verifiedIdsIndexed L circleL)
    ∧ (∀ L : Layer, L.commitOk = true →
        (if L.crs = projCrs then some circle else xform projCrs L.crs circle) ≠ none →
        (processLayer sm projCrs xform cache circle L).warned = false) := by
  refine ⟨doSelectionLayers_eq rm sm cl projCrs xform cache circle, ?_, ?_, ?_, ?_⟩
  · intro L h
    exact processLayer_transform_fail sm projCrs xform cache circle L h
  · intro L hc
    exact processLayer_commit_fail sm projCrs xform cache circle L hc
  · intro L circleL fid hmem
    exact fetch_fail_not_verified L circleL fid hmem
  · intro L hc htr
    exact processLayer_no_warn sm projCrs xform cache circle L hc htr

/-- Witness for the amended C5 at concrete inputs: a transform that
fails for `layerOtherCrs`, a commit failure on `layerCommitFail`, and
a fetch failure for feature 10 of `layerFetchFail`, which is skipped
without a warning. -/
theorem C5_failure_isolation_witness :
    processLayer "add" 0 (fun _ _ _ => none) [] {(0, 0)} layerOtherCrs
      = { newSelection := layerOtherCrs.currentSelection, count := 0, warned := true }
    ∧ (processLayer "add" 0 (fun _ _ _ => none) [] {(0, 0)} layerCommitFail).newSelection
        = layerCommitFail.currentSelection
    ∧ (10 : FeatureId) ∉ verifiedIdsIndexed layerFetchFail {(0, 0)}
    ∧ (processLayer "add" 0 (fun _ _ _ => none) [3] {(0, 0)} layerFetchFail).warned = false :=
  ⟨(C5_failure_isolation "all" "add" none 0 (fun _ _ _ => none) [] {(0, 0)}).2.1
      layerOtherCrs rfl,
   ((C5_failure_isolation "all" "add" none 0 (fun _ _ _ => none) [] {(0, 0)}).2.2.1
      layerCommitFail rfl).1,
   (C5_failure_isolation "all" "add" none 0 (fun _ _ _ => none) [] {(0, 0)}).2.2.2.1
      layerFetchFail {(0, 0)} 10 (by decide),
   (C5_failure_isolation "all" "add" none 0 (fun _ _ _ => none) [3] {(0, 0)}).2.2.2.2
      layerFetchFail rfl (by decide)⟩

/-- Counterexample to C5 as stated: `_do_selection` handles a failed
candidate fetch with a bare `except: continue` (lines 337-338) and no
log call.  Concretely, fetching feature 10 of `layerFetchFail` fails —
the feature would have been verified absent the failure (it is on the
healthy twin `layerPlain`) and is dropped — yet the run over that
layer warns about nothing: the failure is not logged. -/
theorem C5_fetch_silent_counterexample :
    (10 : FeatureId) ∈ layerFetchFail.fetchFailIds
    ∧ (10 : FeatureId) ∈ verifiedIdsIndexed layerPlain {(0, 0)}
    ∧ (10 : FeatureId) ∉ verifiedIdsIndexed layerFetchFail {(0, 0)}
    ∧ (doSelectionLayers "all" "add" none 0 (fun _ _ _ => none) [3] {(0, 0)}
        [layerFetchFail]).2.2 = []
    ∧ (processLayer "add" 0 (fun _ _ _ => none) [3] {(0, 0)} layerFetchFail).warned
        = false := by
  refine ⟨by decide, by decide, by decide, by decide, by decide⟩

/-- C6: `rebuildIndexes` ignores the previous cache entirely (clear
then repopulate, never a partial update), yields exactly the eligible
layers whose index construction succeeded, logs a warning for exactly
the eligible layers whose construction failed, every cache entry
belongs to a currently eligible layer (no stale entries), and with
distinct layer ids the cache holds at most one entry per layer. -/
theorem C6_rebuild_clears_and_repopulates (rm : String) (cl : Option Nat)
    (layers : List Layer) (old old2 : List Nat) :
    rebuildIndexes rm cl layers old = rebuildIndexes rm cl layers old2
    ∧ (rebuildIndexes rm cl layers old).1
        = (layers.filter fun L => eligible rm cl L && L.indexBuildOk).map Layer.lid
    ∧ (rebuildIndexes rm cl layers old).2
        = (layers.filter fun L => eligible rm cl L && !L.indexBuildOk).map Layer.lid
    ∧ (∀ l, l ∈ (rebuildIndexes rm cl layers old).1 ↔
        ∃ L ∈ layers, eligible rm cl L = true ∧ L.indexBuildOk = true ∧ L.lid = l)
    ∧ ((layers.map Layer.lid).Nodup → (rebuildIndexes rm cl layers old).1.Nodup) := by
  refine ⟨rfl, ?_, ?_, ?_, ?_⟩
  · rw [rebuildIndexes, rebuildLoop_eq]
  · rw [rebuildIndexes, rebuildLoop_eq]
  · intro l
    rw [rebuildIndexes, rebuildLoop_eq]
    simp only [List.mem_map, List.mem_filter, Bool.and_eq_true]
    constructor
    · rintro ⟨L, ⟨hL, he, hb⟩, hl⟩
      exact ⟨L, hL, he, hb, hl⟩
    · rintro ⟨L, hL, he, hb, hl⟩
      exact ⟨L, ⟨hL, he, hb⟩, hl⟩
  · intro hnd
    rw [rebuildIndexes, rebuildLoop_eq]
    exact hnd.sublist ((List.filter_sublist layers).map Layer.lid)

/-- Witness for C6: two layers with distinct ids, one of which fails
to build; the cache is duplicate-free. -/
theorem C6_rebuild_witness :
    (rebuildIndexes "all" none [layerPlain, layerBuildFail] [9]).1.Nodup :=
  (C6_rebuild_clears_and_repopulates "all" none [layerPlain, layerBuildFail] [9] [9]).2.2.2.2
    (by decide)

/-- C7: with restrict mode `"active"` and no current layer, a rebuild
yields an empty cache (and no warnings), and a pipeline run passes
over every layer leaving every selection unchanged with a total of
zero — a no-op, not an error — for every layer set. -/
theorem C7_active_no_current_layer (sm : String) (projCrs : Nat)
    (xform : Nat → Nat → Geom → Option Geom) (cache : List Nat) (circle : Geom)
    (layers : List Layer) (old : List Nat) :
    rebuildIndexes "active" none layers old = ([], [])
    ∧ doSelectionLayers "active" sm none projCrs xform cache circle layers
        = (layers.map fun L => (L.lid, L.currentSelection), 0, []) := by
  constructor
  · rw [rebuildIndexes, rebuildLoop_eq]
    simp [eligible_active_none]
  · rw [doSelectionLayers_eq]
    simp [eligible_active_none]

/-- C8: on identical inputs and absent failures, the indexed path
(index bounding-box candidates, then exact verification of each
re-fetched candidate) and the fallback path (bounding-box-filtered
scan, then exact verification) verify exactly the same feature ids,
namely the features whose exact geometry intersects the circle; the
underlying reason is proved separately by `intersects_bboxOverlap`:
exact intersection implies bounding-box overlap, so bounding-box
candidates are a superset of the exact results. -/
theorem C8_index_fallback_agree (L : Layer) (circleL : Geom)
    (hq : L.indexQueryFails = false) (hf : L.fetchFailIds = [])
    (hr : L.featuresReqFails = false)
    (hnd : (L.features.map Feature.fid).Nodup) :
    verifiedIdsFallback L circleL = some (verifiedIdsIndexed L circleL)
    ∧ verifiedIdsIndexed L circleL = (exactVerifiedList L.features circleL).toFinset := by
  have h1 := verifiedListIndexed_eq_exact L circleL hq hf hnd
  have h2 := verifiedFallback_eq_exact L circleL hr
  constructor
  · rw [h2, verifiedIdsIndexed, h1]
  · rw [verifiedIdsIndexed, h1]

/-- Witness for C8: on `layerPlain` and a small circle at the origin,
both paths verify exactly feature 10. -/
theorem C8_index_fallback_agree_witness :
    verifiedIdsFallback layerPlain {(0, 0)} = some (verifiedIdsIndexed layerPlain {(0, 0)})
    ∧ verifiedIdsIndexed layerPlain {(0, 0)}
        = (exactVerifiedList layerPlain.features {(0, 0)}).toFinset :=
  C8_index_fallback_agree layerPlain {(0, 0)} rfl rfl rfl (by decide)

/-- C9: the activation sequence (panel values pushed through the
setters, `rebuildIndexes`, then the host's `activate` callback)
always rebuilds the index cache from scratch (the previous cache
contents are irrelevant), recomputes the cursor visual radius from
the updated configuration, shows the feedback overlay exactly when
the panel enables it, and leaves the tool active. -/
theorem C9_activation_sequence (st : PluginState) (pp : Int) (pm : Rat)
    (pu pr ps : String) (pb : Bool) (mup : Rat) (cl : Option Nat) (layers : List Layer) :
    (activateSequence st pp pm pu pr ps pb mup cl layers).cache
        = (rebuildIndexes
            (activateSequence st pp pm pu pr ps pb mup cl layers).cfg.restrict_mode
            cl layers []).1
    ∧ (activateSequence st pp pm pu pr ps pb mup cl layers).cursorRadius
        = computePixelRadiusForCursor
            (activateSequence st pp pm pu pr ps pb mup cl layers).cfg mup
    ∧ (activateSequence st pp pm pu pr ps pb mup cl layers).overlayVisible = pb
    ∧ (activateSequence st pp pm pu pr ps pb mup cl layers).toolActive = true := by
  refine ⟨rfl, rfl, rfl, rfl⟩

/-- C10: a pipeline run with a stored selection mode outside
\x7badd, replace, toggle\x7d falls into the final `else` branch of the
commit: it silently applies union semantics, does not raise, and does
not skip the commit (count and warning behave exactly as for a valid
mode). -/
theorem C10_unknown_mode_union (mode : String) (C F : Finset FeatureId)
    (h1 : mode ≠ "add") (h2 : mode ≠ "replace") (h3 : mode ≠ "toggle") :
    selectionApply mode C F = C ∪ F
    ∧ (F.Nonempty → commitStep mode true C F = (C ∪ F, F.card, false)) := by
  constructor
  · simp [selectionApply, h1, h2, h3]
  · intro hne
    simp [commitStep, hne, selectionApply, h1, h2, h3]

/-- Witness for C10: mode `"banana"` unions the selections and
commits. -/
theorem C10_unknown_mode_union_witness :
    selectionApply "banana" {1} {2} = ({1} : Finset FeatureId) ∪ {2}
    ∧ commitStep "banana" true {1} {2} = (({1} : Finset FeatureId) ∪ {2}, 1, false) := by
  refine ⟨(C10_unknown_mode_union "banana" {1} {2} (by decide) (by decide) (by decide)).1, ?_⟩
  have := (C10_unknown_mode_union "banana" {1} {2} (by decide) (by decide) (by decide)).2
    (by decide)
  simpa using this

end SelectOnHover
